import Mathlib

/-!
# WorkTrack: productivity analytics and due-date reminder scheduler

Shallow embedding of the productivity-scoring / team-analytics engine and
the due-date reminder scan of the WorkTrack backend
(`backend/controllers/taskController.js` — `getProductivityStats`,
`getTeamProductivityStats`, `updateTaskStatus`, `updateTaskChecklist` — and
`backend/utils/reminderScheduler.js` — `checkDueDateReminders`).

Conventions of the embedding:
* JS `Date` values are integers: milliseconds since the epoch.  The scattered
  `new Date()` calls are abstracted into explicit parameters (`now`,
  `todayStart`, `startDate`); `setHours(0,0,0,0)` / `setHours(23,59,59,999)`
  become a day-start parameter and `+ dayMs - 1`; `setDate(getDate() - 1)`
  becomes `- dayMs` (a fixed-offset-timezone abstraction of local calendar
  arithmetic).
* JS numbers appearing in the score arithmetic are modelled as rationals
  (`ℚ`); `Math.round` is `jsRound` (round half toward +∞), `Math.floor` is
  `Int.floor`.
* Mongoose documents become structures; a field that may be absent
  (`dueDate`, `reminderSent`, a user's `email`) is an `Option`.
* The two `while` loops of the streak computations terminate because of
  their explicit iteration caps; they are written with a structural fuel
  argument whose initial value makes the fuel-exhaustion branch unreachable,
  so the functions compute by `rfl`/`decide`.
-/

namespace WorkTrack

/-- JS `Math.round`: round to the nearest integer, half toward `+∞`. -/
def jsRound (q : ℚ) : ℤ := ⌊q + 1/2⌋

/-- `status` field of a task: `'Pending' | 'In Progress' | 'Completed'`. -/
inductive TaskStatus
  | pending
  | inProgress
  | completed
deriving DecidableEq, Repr

/-- One entry of `todoChecklist`: `{ text, completed }`. -/
structure ChecklistItem where
  text : String
  completed : Bool
deriving DecidableEq, Repr

/-- The slice of a `User` document the reminder scan reads
(`populate('assignedTo', 'name email')`); `email` may be missing. -/
structure User where
  id : ℕ
  name : String
  email : Option String
deriving DecidableEq, Repr

/-- The slice of a `Task` document the analytics and the reminder scan read.
`dueDate` is optional; `reminderSent` is a Mongo field that may be unset,
`false` or `true`, hence `Option Bool`. -/
structure Task where
  id : ℕ
  status : TaskStatus
  priority : String
  dueDate : Option ℤ
  createdAt : ℤ
  updatedAt : ℤ
  todoChecklist : List ChecklistItem
  progress : ℤ
  assignedTo : List User
  reminderSent : Option Bool
  reminderSentAt : Option ℤ
deriving DecidableEq, Repr

/-- Milliseconds in one calendar day. -/
def dayMs : ℤ := 86400000

/-! ## Streak computation

`getProductivityStats` walks backward from today's local midnight one day at
a time, counting days on which some task has `status === 'Completed'` and
`updatedAt` inside `[dayStart, dayEnd]` with `dayEnd = dayStart` at
`23:59:59.999`. -/

/-- `allTasks.some(task => task.status === 'Completed' && updatedAt >= dayStart
&& updatedAt <= dayEnd)` for the day starting at `dayStart`. -/
def completedOnDay (tasks : List Task) (dayStart : ℤ) : Bool :=
  tasks.any fun t =>
    t.status == TaskStatus.completed
      && decide (dayStart ≤ t.updatedAt)
      && decide (t.updatedAt ≤ dayStart + dayMs - 1)

/-- The `while (true)` streak loop of `getProductivityStats`: if the day
counts, increment and step one day back, else break; after an increment,
`if (currentStreak > 365) break`.  The `fuel` argument is only there to make
the recursion structural: starting from `fuel = 366`, `streak = 0`, the cap
check exits before fuel can reach `0`. -/
def streakLoopUser (tasks : List Task) : ℕ → ℤ → ℕ → ℕ
  | 0, _, streak => streak
  | fuel + 1, checkDate, streak =>
    if completedOnDay tasks checkDate then
      if streak + 1 > 365 then streak + 1
      else streakLoopUser tasks fuel (checkDate - dayMs) (streak + 1)
    else streak

/-- `currentStreak` as computed in `getProductivityStats`, starting at
`todayStart` (today's local `00:00:00.000`). -/
def computeStreakUser (tasks : List Task) (todayStart : ℤ) : ℕ :=
  streakLoopUser tasks 366 todayStart 0

/-- The `while (currentStreak < 365)` streak loop of
`getTeamProductivityStats`: here the cap is the loop guard, checked before
the day is scanned.  `fuel` is exactly `365 - streak`, so fuel exhaustion is
exactly the guard failing. -/
def streakLoopTeam (tasks : List Task) : ℕ → ℤ → ℕ → ℕ
  | 0, _, streak => streak
  | fuel + 1, checkDate, streak =>
    if completedOnDay tasks checkDate then
      streakLoopTeam tasks fuel (checkDate - dayMs) (streak + 1)
    else streak

/-- `currentStreak` as computed per member in `getTeamProductivityStats`. -/
def computeStreakTeam (tasks : List Task) (todayStart : ℤ) : ℕ :=
  streakLoopTeam tasks 365 todayStart 0

/-! ## Per-user productivity statistics (`getProductivityStats`) -/

/-- `allTasks.filter(t => t.status === 'Completed')`. -/
def completedTasksOf (tasks : List Task) : List Task :=
  tasks.filter fun t => t.status == TaskStatus.completed

/-- `completedTasks.filter(task => task.dueDate && new Date(task.updatedAt) <=
new Date(task.dueDate)).length`. -/
def onTimeCompletions (tasks : List Task) : ℕ :=
  ((completedTasksOf tasks).filter fun t =>
    match t.dueDate with
    | some d => decide (t.updatedAt ≤ d)
    | none => false).length

/-- `onTimeRate`: `round(onTimeCompletions / completedTasks.length * 100)`,
`0` when there are no completed tasks. -/
def onTimeRate (tasks : List Task) : ℤ :=
  if (completedTasksOf tasks).length > 0 then
    jsRound ((onTimeCompletions tasks : ℚ) / ((completedTasksOf tasks).length : ℚ) * 100)
  else 0

/-- `overdueTasks`: non-completed tasks with a present `dueDate < now`. -/
def overdueCount (tasks : List Task) (now : ℤ) : ℕ :=
  (tasks.filter fun t =>
    t.status != TaskStatus.completed
      && (match t.dueDate with
          | some d => decide (d < now)
          | none => false)).length

/-- `checklistStats.total`: checklist items summed over all tasks (tasks with
an empty checklist contribute `0`). -/
def checklistTotal (tasks : List Task) : ℕ :=
  tasks.foldl (fun acc t => acc + t.todoChecklist.length) 0

/-- `checklistStats.completed`: completed checklist items summed over all
tasks. -/
def checklistCompleted (tasks : List Task) : ℕ :=
  tasks.foldl (fun acc t => acc + (t.todoChecklist.filter (·.completed)).length) 0

/-- `checklistCompletionRate`: `round(completed / total * 100)`, `0` when no
checklist items exist anywhere. -/
def checklistCompletionRate (tasks : List Task) : ℤ :=
  if checklistTotal tasks > 0 then
    jsRound ((checklistCompleted tasks : ℚ) / (checklistTotal tasks : ℚ) * 100)
  else 0

/-- The weighted productivity score of `getProductivityStats`:
`min(100, round(totalTaskWeight + completionRateWeight + onTimeWeight +
streakWeight + checklistWeight))`, where the streak uses the per-user loop
and the checklist weight uses the *rounded* `checklistCompletionRate`. -/
def productivityScoreUser (tasks : List Task) (todayStart : ℤ) : ℤ :=
  let totalTaskWeight : ℚ := min ((tasks.length : ℚ) / 10) 1 * 20
  let completionRateWeight : ℚ :=
    ((completedTasksOf tasks).length : ℚ) / (max tasks.length 1 : ℚ) * 25
  let onTimeWeight : ℚ := (onTimeRate tasks : ℚ) * 0.25
  let streakWeight : ℚ := min ((computeStreakUser tasks todayStart : ℚ) / 7) 1 * 15
  let checklistWeight : ℚ := (checklistCompletionRate tasks : ℚ) * 0.15
  min 100 (jsRound (totalTaskWeight + completionRateWeight + onTimeWeight
    + streakWeight + checklistWeight))

/-- The fields of the `getProductivityStats` JSON response that the analytics
claims are about (`summary`, `periodStats`, `checklistStats`). -/
structure ProductivitySnapshot where
  totalTasks : ℕ
  completedCount : ℕ
  pendingCount : ℕ
  inProgressCount : ℕ
  overdueTasks : ℕ
  productivityScore : ℤ
  tasksCompletedInPeriod : ℕ
  tasksCreatedInPeriod : ℕ
  onTimeRate : ℤ
  currentStreak : ℕ
  checklistTotal : ℕ
  checklistCompleted : ℕ
  checklistRate : ℤ
deriving DecidableEq, Repr

/-- `getProductivityStats` over a user's task list.  The `new Date()` calls
are abstracted: `todayStart` is today's local midnight (streak walk),
`startDate` is the period start (midnight `periodDays` days ago), `now` is
the overdue-comparison instant. -/
def getProductivityStats (tasks : List Task) (todayStart startDate now : ℤ) :
    ProductivitySnapshot where
  totalTasks := tasks.length
  completedCount := (completedTasksOf tasks).length
  pendingCount := (tasks.filter fun t => t.status == TaskStatus.pending).length
  inProgressCount := (tasks.filter fun t => t.status == TaskStatus.inProgress).length
  overdueTasks := overdueCount tasks now
  productivityScore := productivityScoreUser tasks todayStart
  tasksCompletedInPeriod :=
    (tasks.filter fun t =>
      t.status == TaskStatus.completed && decide (startDate ≤ t.updatedAt)).length
  tasksCreatedInPeriod := (tasks.filter fun t => decide (startDate ≤ t.createdAt)).length
  onTimeRate := onTimeRate tasks
  currentStreak := computeStreakUser tasks todayStart
  checklistTotal := checklistTotal tasks
  checklistCompleted := checklistCompleted tasks
  checklistRate := checklistCompletionRate tasks

/-! ## Team productivity statistics (`getTeamProductivityStats`) -/

/-- The per-member record built inside `getTeamProductivityStats`. -/
structure MemberStats where
  userId : ℕ
  totalTasks : ℕ
  completedTasks : ℕ
  completedInPeriod : ℕ
  pendingTasks : ℕ
  inProgressTasks : ℕ
  overdueTasks : ℕ
  onTimeRate : ℤ
  currentStreak : ℕ
  productivityScore : ℤ
deriving DecidableEq, Repr

/-- The productivity score as computed in `getTeamProductivityStats`: same
weights as the per-user path, but the streak uses the team loop and
`checklistRate` is used *unrounded* (`(completed / total) * 100`). -/
def productivityScoreTeam (tasks : List Task) (todayStart : ℤ) : ℤ :=
  let totalTaskWeight : ℚ := min ((tasks.length : ℚ) / 10) 1 * 20
  let completionRateWeight : ℚ :=
    ((completedTasksOf tasks).length : ℚ) / (max tasks.length 1 : ℚ) * 25
  let onTimeWeight : ℚ := (onTimeRate tasks : ℚ) * 0.25
  let streakWeight : ℚ := min ((computeStreakTeam tasks todayStart : ℚ) / 7) 1 * 15
  let checklistRate : ℚ :=
    if checklistTotal tasks > 0 then
      (checklistCompleted tasks : ℚ) / (checklistTotal tasks : ℚ) * 100
    else 0
  let checklistWeight : ℚ := checklistRate * 0.15
  min 100 (jsRound (totalTaskWeight + completionRateWeight + onTimeWeight
    + streakWeight + checklistWeight))

/-- The member snapshot built for one `orgUser` from their assigned tasks. -/
def memberStats (userId : ℕ) (tasks : List Task) (todayStart startDate now : ℤ) :
    MemberStats where
  userId := userId
  totalTasks := tasks.length
  completedTasks := (completedTasksOf tasks).length
  completedInPeriod :=
    (tasks.filter fun t =>
      t.status == TaskStatus.completed && decide (startDate ≤ t.updatedAt)).length
  pendingTasks := (tasks.filter fun t => t.status == TaskStatus.pending).length
  inProgressTasks := (tasks.filter fun t => t.status == TaskStatus.inProgress).length
  overdueTasks := overdueCount tasks now
  onTimeRate := onTimeRate tasks
  currentStreak := computeStreakTeam tasks todayStart
  productivityScore := productivityScoreTeam tasks todayStart

/-- One insertion step of a stable descending sort on `productivityScore`.
The sort folds from the right, so when `x` is inserted the accumulator holds
only elements that come *after* `x` in the input; placing `x` before the
first element whose score it meets or exceeds (`≥`) therefore puts `x` ahead
of equal-scored later elements — equal scores keep their input order.  This
models `teamStats.sort((a, b) => b.productivityScore -
a.productivityScore)` under ES2019's stable `Array.prototype.sort`. -/
def insertByScore (x : MemberStats) : List MemberStats → List MemberStats
  | [] => [x]
  | y :: ys =>
    if x.productivityScore ≥ y.productivityScore then x :: y :: ys
    else y :: insertByScore x ys

/-- Stable sort of the member snapshots, highest score first. -/
def sortByScoreDesc (l : List MemberStats) : List MemberStats :=
  l.foldr insertByScore []

/-- The `teamAverage` object of the response. -/
structure TeamAverage where
  avgProductivityScore : ℤ
  totalCompleted : ℕ
  avgOnTimeRate : ℤ
  totalOverdue : ℕ
deriving DecidableEq, Repr

/-- The parts of the `getTeamProductivityStats` response the claims are
about: `teamSize`, `teamAverage` and the ordered `members`. -/
structure TeamReport where
  teamSize : ℕ
  teamAverage : TeamAverage
  members : List MemberStats
deriving DecidableEq, Repr

/-- `getTeamProductivityStats` over the organization members, each given with
their assigned tasks.  Builds the per-member snapshots, sorts them by
descending score, then computes the team averages over the sorted array. -/
def getTeamProductivityStats (members : List (ℕ × List Task))
    (todayStart startDate now : ℤ) : TeamReport :=
  let teamStats := members.map fun m => memberStats m.1 m.2 todayStart startDate now
  let sorted := sortByScoreDesc teamStats
  { teamSize := sorted.length
    teamAverage :=
      { avgProductivityScore :=
          if sorted.length > 0 then
            jsRound (((sorted.map (·.productivityScore)).sum : ℚ) / (sorted.length : ℚ))
          else 0
        totalCompleted := (sorted.map (·.completedInPeriod)).sum
        avgOnTimeRate :=
          if sorted.length > 0 then
            jsRound (((sorted.map (·.onTimeRate)).sum : ℚ) / (sorted.length : ℚ))
          else 0
        totalOverdue := (sorted.map (·.overdueTasks)).sum }
    members := sorted }

/-! ## Task status / checklist updates (`updateTaskStatus`,
`updateTaskChecklist`) -/

/-- The mutation performed by `updateTaskStatus` on a found, authorized task:
`task.status = req.body.status || task.status` (a missing/falsy request
status keeps the old one, modelled by `Option`), and if the resulting status
is `'Completed'`, every checklist item's `completed` flag is forced to `true`
and `progress` to `100`. -/
def updateTaskStatus (t : Task) (reqStatus : Option TaskStatus) : Task :=
  let newStatus := reqStatus.getD t.status
  if newStatus == TaskStatus.completed then
    { t with
      status := newStatus
      todoChecklist := t.todoChecklist.map fun item => { item with completed := true }
      progress := 100 }
  else { t with status := newStatus }

/-- The mutation performed by `updateTaskChecklist` on a found, authorized
task: replace `todoChecklist`, recompute `progress` as
`round(completedCount / totalItems * 100)` (`0` for an empty checklist), and
derive `status` from `progress` (`100 → 'Completed'`, `> 0 → 'In Progress'`,
otherwise `'Pending'`). -/
def updateTaskChecklist (t : Task) (newChecklist : List ChecklistItem) : Task :=
  let completedCount := (newChecklist.filter (·.completed)).length
  let totalItems := newChecklist.length
  let progress : ℤ :=
    if totalItems > 0 then
      jsRound ((completedCount : ℚ) / (totalItems : ℚ) * 100)
    else 0
  { t with
    todoChecklist := newChecklist
    progress := progress
    status :=
      if progress == 100 then TaskStatus.completed
      else if progress > 0 then TaskStatus.inProgress
      else TaskStatus.pending }

/-! ## Due-date reminder scan (`checkDueDateReminders`)

The scan queries `Task.find({ status: { $ne: 'Completed' }, dueDate: { $gt:
now, $lte: now + 24h }, reminderSent: { $ne: true } })`, then for every
assignee with an email creates an in-app notification and attempts an email;
a task is marked `reminderSent: true, reminderSentAt: new Date()` via
`findByIdAndUpdate` iff at least one assignee attempt resolved.

The two external calls are modelled by an outcome oracle, but they fail
differently: `Notification.create` can throw (caught by the assignee's
`try`), whereas `sendDueDateReminder` catches its own SMTP errors and
*returns* `{ success: false }` — it never throws — and the scheduler ignores
that return value.  So an assignee's mapped result is `success: true` iff
the notification creation resolved; the email outcome cannot affect it. -/

/-- Outcome oracle for one scan: whether `Notification.create` resolves, and
whether `sendDueDateReminder` reports `{ success: true }`, for a given task
id and user id.  The scheduler ignores the latter. -/
structure ScanOracle where
  notifOk : ℕ → ℕ → Bool
  emailOk : ℕ → ℕ → Bool

/-- An externally visible dispatch performed by the scan: an in-app
notification created, or an email send attempted, for (task id, user id). -/
inductive Dispatch
  | notification (taskId userId : ℕ)
  | email (taskId userId : ℕ)
deriving DecidableEq, Repr

/-- The Mongo eligibility filter of the scan:
not completed, `now < dueDate ≤ now + 24·60·60·1000`, and `reminderSent ≠
true` (absent documents and `false` both match `$ne: true`). -/
def needsReminder (now : ℤ) (t : Task) : Bool :=
  t.status != TaskStatus.completed
    && (match t.dueDate with
        | some d => decide (now < d) && decide (d ≤ now + 24 * 60 * 60 * 1000)
        | none => false)
    && t.reminderSent != some true

/-- One assignee's reminder attempt (`task.assignedTo.map(async (user) =>
...)`): users without an email are skipped (`return null`, not a success);
otherwise the notification is created, then the email send attempted.  If
`Notification.create` throws, the `catch` yields `success: false` and no
email is attempted; otherwise `sendDueDateReminder` is awaited — it never
throws, and its `{ success }` return value is discarded — so the mapped
result is `success: true` regardless of the email outcome.  Returns the
dispatches that actually happened and the success flag. -/
def processAssignee (o : ScanOracle) (t : Task) (u : User) : List Dispatch × Bool :=
  match u.email with
  | none => ([], false)
  | some _ =>
    if o.notifOk t.id u.id then
      ([Dispatch.notification t.id u.id, Dispatch.email t.id u.id], true)
    else ([], false)

/-- The write the scan performs on a committing task:
`Task.findByIdAndUpdate(task._id, { reminderSent: true, reminderSentAt: new
Date() })` — an update by id with no condition on the prior field values. -/
def markReminderSent (now : ℤ) (t : Task) : Task :=
  { t with reminderSent := some true, reminderSentAt := some now }

/-- Process one eligible task: run every assignee's attempt, count successes,
and if `successCount > 0` commit the `markReminderSent` write. -/
def processTask (o : ScanOracle) (now : ℤ) (t : Task) : List Dispatch × Task :=
  let results := t.assignedTo.map (processAssignee o t)
  let log := (results.map Prod.fst).flatten
  let successCount := (results.filter Prod.snd).length
  (log, if successCount > 0 then markReminderSent now t else t)

/-- The effect of one scan on one stored task: tasks failing the query
filter are untouched and dispatch nothing. -/
def scanStep (o : ScanOracle) (now : ℤ) (t : Task) : List Dispatch × Task :=
  if needsReminder now t then processTask o now t else ([], t)

/-- `checkDueDateReminders` over the whole task store: the dispatch log, the
updated store, and the `tasksProcessed` count of the returned summary. -/
def checkDueDateReminders (o : ScanOracle) (now : ℤ) (tasks : List Task) :
    List Dispatch × List Task × ℕ :=
  let stepped := tasks.map (scanStep o now)
  ((stepped.map Prod.fst).flatten, stepped.map Prod.snd,
    (tasks.filter (needsReminder now)).length)

/-! ## Sample data used by witnesses and counterexamples -/

/-- Sample assignee with an email address. -/
def alice : User := ⟨1, "Alice", some "alice@example.com"⟩

/-- Second sample assignee with an email address. -/
def bob : User := ⟨2, "Bob", some "bob@example.com"⟩

/-- Oracle under which every notification creation and email send succeeds. -/
def allOk : ScanOracle := ⟨fun _ _ => true, fun _ _ => true⟩

/-- Oracle under which every notification creation resolves but every email
send fails (`sendDueDateReminder` returns `{ success: false }` each time). -/
def allEmailFail : ScanOracle := ⟨fun _ _ => true, fun _ _ => false⟩

/-- A pending task assigned to Alice and Bob, due 10 hours from time `0`,
with no reminder sent yet. -/
def taskDue10h : Task :=
  { id := 10, status := TaskStatus.pending, priority := "High"
    dueDate := some (10 * 3600000), createdAt := 0, updatedAt := 0
    todoChecklist := [], progress := 0, assignedTo := [alice, bob]
    reminderSent := none, reminderSentAt := none }

/-- A task like `taskDue10h` whose persisted `reminderSent` flag is already
`true`. -/
def taskSent : Task := { taskDue10h with id := 11, reminderSent := some true }

/-- A pending, unreminded task assigned to Alice, due `d` milliseconds after
the epoch. -/
def dueTask (d : ℤ) : Task :=
  { id := 12, status := TaskStatus.pending, priority := "Medium"
    dueDate := some d, createdAt := 0, updatedAt := 0
    todoChecklist := [], progress := 0, assignedTo := [alice]
    reminderSent := none, reminderSentAt := none }

/-! ## Reminder-scan lemmas -/

/-- A task whose persisted `reminderSent` flag is `true` fails the scan's
query filter, so the scan leaves it untouched and dispatches nothing. -/
lemma scanStep_of_reminderSent_true (o : ScanOracle) (now : ℤ) (t : Task)
    (h : t.reminderSent = some true) : scanStep o now t = ([], t) := by
  have hfilter : needsReminder now t = false := by
    simp [needsReminder, h]
  simp [scanStep, hfilter]

/-- One assignee's mapped result is a success iff the user has an email and
the notification creation resolves — the email outcome plays no part. -/
lemma processAssignee_snd (o : ScanOracle) (t : Task) (u : User) :
    (processAssignee o t u).2 = true ↔
      u.email ≠ none ∧ o.notifOk t.id u.id = true := by
  cases he : u.email with
  | none => simp [processAssignee, he]
  | some e =>
    by_cases hn : o.notifOk t.id u.id = true <;>
      simp [processAssignee, he, hn]

/-- The dispatch log of `processTask` does not depend on whether the task
commits. -/
lemma processTask_fst (o : ScanOracle) (now : ℤ) (t : Task) :
    (processTask o now t).1 =
      ((t.assignedTo.map (processAssignee o t)).map Prod.fst).flatten := rfl

/-- `processTask` commits the `markReminderSent` write iff some assignee's
attempt succeeded, and otherwise returns the task unchanged. -/
lemma processTask_snd (o : ScanOracle) (now : ℤ) (t : Task) :
    (processTask o now t).2 =
      if ∃ u ∈ t.assignedTo, (processAssignee o t u).2 = true
      then markReminderSent now t else t := by
  have hiff : (0 < ((t.assignedTo.map (processAssignee o t)).filter Prod.snd).length) ↔
      ∃ u ∈ t.assignedTo, (processAssignee o t u).2 = true := by
    rw [List.length_pos_iff_ne_nil]
    simp [List.filter_eq_nil_iff]
  simp only [processTask]
  by_cases h : ∃ u ∈ t.assignedTo, (processAssignee o t u).2 = true
  · rw [if_pos h, if_pos (hiff.mpr h)]
  · rw [if_neg h, if_neg (fun hc => h (hiff.mp hc))]

/-! ## The claims about the reminder scan -/

/-- C1: a task whose persisted `reminderSent` flag is `true` is selected for
no dispatch by a reminder scan — no in-app notification is created and no
email is attempted for it — and hence a task that transitioned to
`reminderSent = true` in a first scan receives no dispatch at all from an
immediately following second scan, as long as the flag is not externally
reset in between. -/
theorem reminderSent_flag_suppresses_dispatch :
    (∀ (o : ScanOracle) (now : ℤ) (t : Task),
      t.reminderSent = some true → scanStep o now t = ([], t)) ∧
    (∀ (o₁ o₂ : ScanOracle) (now₁ now₂ : ℤ) (t : Task),
      (scanStep o₁ now₁ t).2.reminderSent = some true →
        (scanStep o₂ now₂ (scanStep o₁ now₁ t).2).1 = []) := by
  refine ⟨fun o now t h => scanStep_of_reminderSent_true o now t h,
    fun o₁ o₂ now₁ now₂ t h => ?_⟩
  rw [scanStep_of_reminderSent_true o₂ now₂ _ h]

/-- Witness for C1 at concrete inputs: a task with the flag already set is
untouched by a scan, and a task that transitions in a first scan gets no
dispatch from a second. -/
theorem reminderSent_flag_suppresses_dispatch_witness :
    scanStep allOk 0 taskSent = ([], taskSent) ∧
    (scanStep allOk (3600 * 1000) (scanStep allOk 0 taskDue10h).2).1 = [] :=
  ⟨reminderSent_flag_suppresses_dispatch.1 allOk 0 taskSent (by decide),
    reminderSent_flag_suppresses_dispatch.2 allOk allOk 0 (3600 * 1000) taskDue10h
      (by decide)⟩

/-- C2: evaluation of the scan at the failing input.  For the selected task
`taskDue10h` (two assignees with emails, due in 10 hours, flag unset) under
the oracle where both notification creations resolve but both email sends
fail (`sendDueDateReminder` returns `{ success: false }` each time), the
scan still attempts both emails, then commits `reminderSent = true,
reminderSentAt = now` — contradicting the claim (and the scheduler's own
comment, "Mark task as reminder sent if at least one email was sent
successfully") that the flag stays unset when every email attempt fails so
the task is retried on the next scan. -/
theorem reminder_commits_without_email_success :
    allEmailFail.emailOk taskDue10h.id alice.id = false ∧
    allEmailFail.emailOk taskDue10h.id bob.id = false ∧
    (scanStep allEmailFail 0 taskDue10h).1 =
      [Dispatch.notification taskDue10h.id alice.id,
        Dispatch.email taskDue10h.id alice.id,
        Dispatch.notification taskDue10h.id bob.id,
        Dispatch.email taskDue10h.id bob.id] ∧
    (scanStep allEmailFail 0 taskDue10h).2.reminderSent = some true ∧
    (scanStep allEmailFail 0 taskDue10h).2.reminderSentAt = some 0 :=
  ⟨rfl, rfl, by decide, by decide, by decide⟩

/-- C3: the scan selects exactly the tasks that are not completed, have
`reminderSent` unset or `false`, and have a due date in `(now, now + 24h]`;
at `now = 0` a task due in exactly 24 hours is selected, a task due in 24
hours plus one minute is not, and a task due at or before `now` is not. -/
theorem reminder_window_characterization :
    (∀ (now : ℤ) (t : Task),
      needsReminder now t = true ↔
        t.status ≠ TaskStatus.completed ∧
        (t.reminderSent = none ∨ t.reminderSent = some false) ∧
        ∃ d, t.dueDate = some d ∧ now < d ∧ d ≤ now + 24 * 60 * 60 * 1000) ∧
    needsReminder 0 (dueTask (24 * 60 * 60 * 1000)) = true ∧
    needsReminder 0 (dueTask (24 * 60 * 60 * 1000 + 60 * 1000)) = false ∧
    needsReminder 0 (dueTask 0) = false ∧
    needsReminder 0 (dueTask (-1)) = false := by
  refine ⟨fun now t => ?_, by decide, by decide, by decide, by decide⟩
  constructor
  · intro h
    simp only [needsReminder, Bool.and_eq_true, bne_iff_ne, ne_eq] at h
    obtain ⟨⟨hstatus, hdue⟩, hflag⟩ := h
    refine ⟨hstatus, ?_, ?_⟩
    · cases hr : t.reminderSent with
      | none => exact Or.inl rfl
      | some b =>
        cases b with
        | false => exact Or.inr rfl
        | true => exact absurd hr hflag
    · cases hd : t.dueDate with
      | none => rw [hd] at hdue; simp at hdue
      | some d =>
        rw [hd] at hdue
        simp only [Bool.and_eq_true, decide_eq_true_eq] at hdue
        exact ⟨d, rfl, hdue.1, hdue.2⟩
  · rintro ⟨hstatus, hflag, d, hd, h1, h2⟩
    simp only [needsReminder, hd, Bool.and_eq_true, bne_iff_ne, ne_eq,
      decide_eq_true_eq]
    refine ⟨⟨hstatus, h1, h2⟩, ?_⟩
    rcases hflag with hf | hf <;> simp [hf]

/-- C4 counterexample: the write the scan performs (`findByIdAndUpdate` with
`{ reminderSent: true, reminderSentAt: now }`) is not a compare-and-set — on
a task whose flag is already `true` it still commits, changing
`reminderSentAt`, instead of being a conflict/no-op. -/
theorem markReminderSent_not_conditional_counterexample :
    taskSent.reminderSent = some true ∧
    markReminderSent 99 taskSent ≠ taskSent ∧
    (markReminderSent 99 taskSent).reminderSentAt = some 99 := by
  refine ⟨rfl, ?_, rfl⟩
  decide

/-- C4 (amended): the write that sets `reminderSent = true` is an
unconditional update by task id: applied to any task it commits, setting
`reminderSent = true` and `reminderSentAt = now` regardless of the prior
flag value, with no conflict reported; duplicate dispatch is prevented only
upstream, by the scan's selection filter, which skips any task whose flag is
already `true`. -/
theorem markReminderSent_unconditional :
    (∀ (now : ℤ) (t : Task),
      (markReminderSent now t).reminderSent = some true ∧
      (markReminderSent now t).reminderSentAt = some now ∧
      (markReminderSent now t).status = t.status ∧
      (markReminderSent now t).dueDate = t.dueDate) ∧
    (∀ (o : ScanOracle) (now : ℤ) (t : Task),
      t.reminderSent = some true → scanStep o now t = ([], t)) :=
  ⟨fun _ _ => ⟨rfl, rfl, rfl, rfl⟩,
    fun o now t h => scanStep_of_reminderSent_true o now t h⟩

/-- Witness for the amended C4 at concrete inputs. -/
theorem markReminderSent_unconditional_witness :
    (markReminderSent 7 taskDue10h).reminderSent = some true ∧
    scanStep allOk 0 taskSent = ([], taskSent) :=
  ⟨(markReminderSent_unconditional.1 7 taskDue10h).1,
    markReminderSent_unconditional.2 allOk 0 taskSent (by decide)⟩

/-! ## Streak lemmas and claims -/

/-- The spec's description of a counting day: day `i` (counting back from
`todayStart`) has at least one task with status `Completed` whose
`updatedAt` lies inside that day's `00:00:00.000`–`23:59:59.999` boundary. -/
def SpecCountsDay (tasks : List Task) (todayStart : ℤ) (i : ℕ) : Prop :=
  ∃ t ∈ tasks, t.status = TaskStatus.completed ∧
    todayStart - i * dayMs ≤ t.updatedAt ∧
    t.updatedAt ≤ todayStart - i * dayMs + dayMs - 1

instance (tasks : List Task) (todayStart : ℤ) (i : ℕ) :
    Decidable (SpecCountsDay tasks todayStart i) :=
  List.decidableBEx _ tasks

/-- Day `i` of the walk counts per the spec iff the source's `completedOnDay`
check succeeds at that day's start. -/
lemma specCountsDay_iff (tasks : List Task) (todayStart : ℤ) (i : ℕ) :
    SpecCountsDay tasks todayStart i ↔
      completedOnDay tasks (todayStart - i * dayMs) = true := by
  unfold SpecCountsDay completedOnDay
  rw [List.any_eq_true]
  constructor
  · rintro ⟨t, ht, h1, h2, h3⟩
    exact ⟨t, ht, by simp [h1, h2, h3]⟩
  · rintro ⟨t, ht, hb⟩
    simp only [Bool.and_eq_true, beq_iff_eq, decide_eq_true_eq] at hb
    exact ⟨t, ht, hb.1.1, hb.1.2, hb.2⟩

/-- The per-user streak loop never returns more than `streak + fuel`. -/
lemma streakLoopUser_le (tasks : List Task) :
    ∀ (fuel : ℕ) (cd : ℤ) (streak : ℕ),
      streakLoopUser tasks fuel cd streak ≤ streak + fuel := by
  intro fuel
  induction fuel with
  | zero => intro cd streak; simp [streakLoopUser]
  | succ fuel ih =>
    intro cd streak
    simp only [streakLoopUser]
    by_cases hc : completedOnDay tasks cd = true
    · rw [if_pos hc]
      by_cases hcap : streak + 1 > 365
      · rw [if_pos hcap]; omega
      · rw [if_neg hcap]
        have := ih (cd - dayMs) (streak + 1)
        omega
    · rw [if_neg hc]; omega

/-- The team streak loop never returns more than `streak + fuel`. -/
lemma streakLoopTeam_le (tasks : List Task) :
    ∀ (fuel : ℕ) (cd : ℤ) (streak : ℕ),
      streakLoopTeam tasks fuel cd streak ≤ streak + fuel := by
  intro fuel
  induction fuel with
  | zero => intro cd streak; simp [streakLoopTeam]
  | succ fuel ih =>
    intro cd streak
    simp only [streakLoopTeam]
    by_cases hc : completedOnDay tasks cd = true
    · rw [if_pos hc]
      have := ih (cd - dayMs) (streak + 1)
      omega
    · rw [if_neg hc]; omega

/-- Exact value of the per-user streak loop when the first `n` days of the
walk count and day `n` does not: it returns `min n 366` (the `> 365` cap
fires after the increment, so the loop can scan 366 days and return 366). -/
lemma streakLoopUser_eq_min (tasks : List Task) (todayStart : ℤ) (n : ℕ)
    (hcount : ∀ i < n, completedOnDay tasks (todayStart - i * dayMs) = true)
    (hstop : completedOnDay tasks (todayStart - n * dayMs) = false) :
    ∀ (fuel streak : ℕ), streak + fuel = 366 → streak ≤ n →
      streakLoopUser tasks fuel (todayStart - streak * dayMs) streak = min n 366 := by
  intro fuel
  induction fuel with
  | zero =>
    intro streak h366 hle
    simp only [streakLoopUser]
    omega
  | succ fuel ih =>
    intro streak h366 hle
    rcases eq_or_lt_of_le hle with heq | hlt
    · subst heq
      simp only [streakLoopUser, hstop, Bool.false_eq_true, if_false]
      omega
    · have hc := hcount streak hlt
      simp only [streakLoopUser, hc, if_true]
      by_cases hcap : streak + 1 > 365
      · rw [if_pos hcap]; omega
      · rw [if_neg hcap]
        have harg : todayStart - streak * dayMs - dayMs
            = todayStart - ((streak + 1 : ℕ) : ℤ) * dayMs := by
          push_cast; ring
        rw [harg]
        exact ih (streak + 1) (by omega) (by omega)

/-- `computeStreakUser` returns `min n 366` when the first `n` walk days
count and day `n` does not. -/
lemma computeStreakUser_eq_min (tasks : List Task) (todayStart : ℤ) (n : ℕ)
    (hcount : ∀ i < n, SpecCountsDay tasks todayStart i)
    (hstop : ¬SpecCountsDay tasks todayStart n) :
    computeStreakUser tasks todayStart = min n 366 := by
  have h := streakLoopUser_eq_min tasks todayStart n
    (fun i hi => (specCountsDay_iff tasks todayStart i).mp (hcount i hi))
    (by
      rw [specCountsDay_iff] at hstop
      exact Bool.not_eq_true _ ▸ Bool.eq_false_iff.mpr (fun hc => hstop hc))
    366 0 rfl (Nat.zero_le n)
  simpa [computeStreakUser] using h

/-- Exact value of the team streak loop: with its `while (currentStreak <
365)` guard it returns `min n 365`. -/
lemma streakLoopTeam_eq_min (tasks : List Task) (todayStart : ℤ) (n : ℕ)
    (hcount : ∀ i < n, completedOnDay tasks (todayStart - i * dayMs) = true)
    (hstop : completedOnDay tasks (todayStart - n * dayMs) = false) :
    ∀ (fuel streak : ℕ), streak + fuel = 365 → streak ≤ n →
      streakLoopTeam tasks fuel (todayStart - streak * dayMs) streak = min n 365 := by
  intro fuel
  induction fuel with
  | zero =>
    intro streak h365 hle
    simp only [streakLoopTeam]
    omega
  | succ fuel ih =>
    intro streak h365 hle
    rcases eq_or_lt_of_le hle with heq | hlt
    · subst heq
      simp only [streakLoopTeam, hstop, Bool.false_eq_true, if_false]
      omega
    · have hc := hcount streak hlt
      simp only [streakLoopTeam, hc, if_true]
      have harg : todayStart - streak * dayMs - dayMs
          = todayStart - ((streak + 1 : ℕ) : ℤ) * dayMs := by
        push_cast; ring
      rw [harg]
      exact ih (streak + 1) (by omega) (by omega)

/-- A walk start used by the concrete streak scenarios: local midnight 367
days after the epoch. -/
def T367 : ℤ := 367 * dayMs

/-- A task completed exactly at the start of walk day `i` (counting back
from `T367`). -/
def dayTask (i : ℕ) : Task :=
  { id := 100 + i, status := TaskStatus.completed, priority := "Low"
    dueDate := none, createdAt := 0, updatedAt := T367 - i * dayMs
    todoChecklist := [], progress := 100, assignedTo := []
    reminderSent := none, reminderSentAt := none }

/-- A task history with one completion on each of the 367 consecutive walk
days `0..366`. -/
def tasks367 : List Task := (List.range 367).map dayTask

/-- Completions on today, yesterday and three days ago, with a gap on day
two. -/
def gapTasks : List Task := [dayTask 0, dayTask 1, dayTask 3]

/-- Every walk day `i < 367` counts for `tasks367`. -/
lemma tasks367_counts (i : ℕ) (hi : i < 367) : SpecCountsDay tasks367 T367 i := by
  refine ⟨dayTask i, List.mem_map_of_mem dayTask (List.mem_range.mpr hi), rfl, ?_, ?_⟩
  · simp [dayTask]
  · simp only [dayTask, T367, dayMs]
    omega

/-- Walk day `367` does not count for `tasks367`. -/
lemma tasks367_stop : ¬SpecCountsDay tasks367 T367 367 := by
  rintro ⟨t, ht, hst, h1, h2⟩
  obtain ⟨i, hi, rfl⟩ := List.mem_map.mp ht
  rw [List.mem_range] at hi
  simp only [dayTask, T367, dayMs] at h1 h2
  omega

/-- The per-user streak over `tasks367` evaluates to 366: the cap fires only
after the 366th increment. -/
lemma computeStreakUser_tasks367 : computeStreakUser tasks367 T367 = 366 := by
  have h := computeStreakUser_eq_min tasks367 T367 367 tasks367_counts tasks367_stop
  simpa using h

/-- C5 counterexample: a task history with completions on 367 consecutive
days ending today makes the per-user streak walk return 366, exceeding the
claimed hard bound of 365. -/
theorem streak_bound_365_counterexample :
    computeStreakUser tasks367 T367 = 366 ∧
    ¬computeStreakUser tasks367 T367 ≤ 365 := by
  refine ⟨computeStreakUser_tasks367, ?_⟩
  rw [computeStreakUser_tasks367]
  omega

/-- C5 (amended): the backward day-by-day walk always terminates, scanning
at most 366 calendar days in the per-user productivity-stats path — so that
streak never exceeds 366, and 366 is reached — while the per-member
team-stats path, whose cap is the loop guard, scans at most 365 days and its
streak never exceeds 365. -/
theorem streak_walk_bounded :
    (∀ (tasks : List Task) (todayStart : ℤ),
      computeStreakUser tasks todayStart ≤ 366 ∧
      computeStreakTeam tasks todayStart ≤ 365) ∧
    computeStreakUser tasks367 T367 = 366 :=
  ⟨fun tasks todayStart =>
    ⟨streakLoopUser_le tasks 366 todayStart 0, streakLoopTeam_le tasks 365 todayStart 0⟩,
    computeStreakUser_tasks367⟩

/-- C6 counterexample: for `tasks367` all 367 walk days `0..366` count and
day 367 does not, so the number of consecutive counting days ending today is
367, yet the computed streak is 366 — the two differ once the run exceeds
the 366-iteration cap. -/
theorem streak_equals_consecutive_counterexample :
    ((List.range 367).all fun i => decide (SpecCountsDay tasks367 T367 i)) = true ∧
    ¬SpecCountsDay tasks367 T367 367 ∧
    computeStreakUser tasks367 T367 = 366 ∧ (366 : ℕ) ≠ 367 := by
  refine ⟨?_, tasks367_stop, computeStreakUser_tasks367, by omega⟩
  rw [List.all_eq_true]
  intro i hi
  exact decide_eq_true (tasks367_counts i (List.mem_range.mp hi))

/-- C6 (amended): when the consecutive counting-day run ending at today has
length `n` (days `0..n-1` count, day `n` does not), the computed per-user
streak equals `min n 366` — hence it equals the consecutive-day count
whenever that count is at most 366; the empty task set yields streak 0, a
task set with no completion today yields streak 0, and completions on today,
yesterday and three days ago with a gap on day two yield streak 2, not 4. -/
theorem streak_counts_consecutive_days :
    (∀ (tasks : List Task) (todayStart : ℤ) (n : ℕ),
      (∀ i < n, SpecCountsDay tasks todayStart i) →
      ¬SpecCountsDay tasks todayStart n →
      computeStreakUser tasks todayStart = min n 366) ∧
    (∀ todayStart : ℤ, computeStreakUser [] todayStart = 0) ∧
    (∀ (tasks : List Task) (todayStart : ℤ),
      ¬SpecCountsDay tasks todayStart 0 → computeStreakUser tasks todayStart = 0) ∧
    computeStreakUser gapTasks T367 = 2 := by
  refine ⟨computeStreakUser_eq_min, fun todayStart => rfl, ?_, by decide⟩
  intro tasks todayStart h0
  have h := computeStreakUser_eq_min tasks todayStart 0 (by omega) h0
  simpa using h

/-- Witness for C6 at a concrete input: applying the characterization at
`gapTasks` with run length 2 (days 0 and 1 count, day 2 does not). -/
theorem streak_counts_consecutive_days_witness :
    computeStreakUser gapTasks T367 = min 2 366 :=
  streak_counts_consecutive_days.1 gapTasks T367 2 (by decide) (by decide)

/-! ## Productivity-score lemmas and claims -/

/-- `jsRound` of a nonnegative value is nonnegative. -/
lemma jsRound_nonneg {q : ℚ} (h : 0 ≤ q) : 0 ≤ jsRound q := by
  rw [jsRound]
  exact Int.le_floor.mpr (by push_cast; linarith)

/-- `onTimeRate` is never negative. -/
lemma onTimeRate_nonneg (tasks : List Task) : 0 ≤ onTimeRate tasks := by
  rw [onTimeRate]
  split
  · exact jsRound_nonneg (by positivity)
  · exact le_refl 0

/-- `checklistCompletionRate` is never negative. -/
lemma checklistCompletionRate_nonneg (tasks : List Task) :
    0 ≤ checklistCompletionRate tasks := by
  rw [checklistCompletionRate]
  split
  · exact jsRound_nonneg (by positivity)
  · exact le_refl 0

/-- A checklist of 20 items of which the first 15 are completed. -/
def itemsC7 : List ChecklistItem :=
  (List.range 20).map fun i => ⟨"item", decide (i < 15)⟩

/-- A completed task with the given `updatedAt` and `dueDate`. -/
def cTask (n : ℕ) (upd due : ℤ) : Task :=
  { id := n, status := TaskStatus.completed, priority := "High"
    dueDate := some due, createdAt := 0, updatedAt := upd
    todoChecklist := [], progress := 100, assignedTo := []
    reminderSent := none, reminderSentAt := none }

/-- A pending task with the given checklist and no due date. -/
def pTask (n : ℕ) (checklist : List ChecklistItem) : Task :=
  { id := n, status := TaskStatus.pending, priority := "Low"
    dueDate := none, createdAt := 0, updatedAt := 0
    todoChecklist := checklist, progress := 0, assignedTo := []
    reminderSent := none, reminderSentAt := none }

/-- The concrete scenario of the end-to-end score claim: 10 tasks, 6
completed (3 today, 2 yesterday mapping to walk days, 1 two days ago), 5 of
the 6 on time, a 20-item/15-completed checklist on a pending task, streak 3
(completions on walk days 0, 1, 2 only). -/
def tasksC7 : List Task :=
  [cTask 1 T367 (T367 + 1000),
    cTask 2 T367 T367,
    cTask 3 T367 (T367 + 5000),
    cTask 4 (T367 - dayMs) T367,
    cTask 5 (T367 - 2 * dayMs) T367,
    cTask 6 (T367 - 2 * dayMs) (T367 - 3 * dayMs),
    pTask 7 itemsC7, pTask 8 [], pTask 9 [], pTask 10 []]

/-- C7: in the concrete scenario — 10 assigned tasks, 6 completed of which 5
on time, 20 checklist items with 15 completed, current streak 3 — the
productivity snapshot reports onTimeRate 83, checklistRate 75, and composite
score 73 (volume 20 + completion 15 + on-time 20.75 + streak ≈6.43 +
checklist 11.25 ≈ 73.4, rounded to 73). -/
theorem productivity_score_end_to_end :
    (getProductivityStats tasksC7 T367 (T367 - 30 * dayMs) T367).totalTasks = 10 ∧
    (getProductivityStats tasksC7 T367 (T367 - 30 * dayMs) T367).completedCount = 6 ∧
    onTimeCompletions tasksC7 = 5 ∧
    (getProductivityStats tasksC7 T367 (T367 - 30 * dayMs) T367).onTimeRate = 83 ∧
    (getProductivityStats tasksC7 T367 (T367 - 30 * dayMs) T367).currentStreak = 3 ∧
    (getProductivityStats tasksC7 T367 (T367 - 30 * dayMs) T367).checklistTotal = 20 ∧
    (getProductivityStats tasksC7 T367 (T367 - 30 * dayMs) T367).checklistCompleted = 15 ∧
    (getProductivityStats tasksC7 T367 (T367 - 30 * dayMs) T367).checklistRate = 75 ∧
    (getProductivityStats tasksC7 T367 (T367 - 30 * dayMs) T367).productivityScore = 73 := by
  have hlen : tasksC7.length = 10 := by decide
  have hcomp : (completedTasksOf tasksC7).length = 6 := by decide
  have hontime : onTimeCompletions tasksC7 = 5 := by decide
  have hstreak : computeStreakUser tasksC7 T367 = 3 := by decide
  have htot : checklistTotal tasksC7 = 20 := by decide
  have hdone : checklistCompleted tasksC7 = 15 := by decide
  have hrate : onTimeRate tasksC7 = 83 := by
    rw [onTimeRate, hcomp, hontime]
    norm_num [jsRound]
  have hcrate : checklistCompletionRate tasksC7 = 75 := by
    rw [checklistCompletionRate, htot, hdone]
    norm_num [jsRound]
  refine ⟨hlen, hcomp, hontime, hrate, hstreak, htot, hdone, hcrate, ?_⟩
  show productivityScoreUser tasksC7 T367 = 73
  rw [productivityScoreUser, hlen, hcomp, hrate, hstreak, hcrate]
  norm_num [jsRound]

/-- The sum of the five score weights is nonnegative for every task list. -/
lemma scoreWeights_nonneg (tasks : List Task) (todayStart : ℤ) :
    (0 : ℚ) ≤ min ((tasks.length : ℚ) / 10) 1 * 20
      + ((completedTasksOf tasks).length : ℚ) / (max tasks.length 1 : ℚ) * 25
      + (onTimeRate tasks : ℚ) * 0.25
      + min ((computeStreakUser tasks todayStart : ℚ) / 7) 1 * 15
      + (checklistCompletionRate tasks : ℚ) * 0.15 := by
  have h1 : (0 : ℚ) ≤ min ((tasks.length : ℚ) / 10) 1 * 20 := by
    apply mul_nonneg _ (by norm_num)
    exact le_min (by positivity) (by norm_num)
  have h2 : (0 : ℚ) ≤ ((completedTasksOf tasks).length : ℚ) / (max tasks.length 1 : ℚ) * 25 := by
    positivity
  have h3 : (0 : ℚ) ≤ (onTimeRate tasks : ℚ) * 0.25 := by
    apply mul_nonneg _ (by norm_num)
    exact_mod_cast onTimeRate_nonneg tasks
  have h4 : (0 : ℚ) ≤ min ((computeStreakUser tasks todayStart : ℚ) / 7) 1 * 15 := by
    apply mul_nonneg _ (by norm_num)
    exact le_min (by positivity) (by norm_num)
  have h5 : (0 : ℚ) ≤ (checklistCompletionRate tasks : ℚ) * 0.15 := by
    apply mul_nonneg _ (by norm_num)
    exact_mod_cast checklistCompletionRate_nonneg tasks
  linarith

/-- C8: the productivity score is an integer in `[0, 100]` for every task
list and every choice of the time parameters, and the empty task list
degrades gracefully: `onTimeRate = 0`, `checklistRate = 0`, `score = 0`
(there is no division by zero to fail on — the rate denominators are
guarded). -/
theorem productivity_score_bounded :
    (∀ (tasks : List Task) (todayStart startDate now : ℤ),
      0 ≤ (getProductivityStats tasks todayStart startDate now).productivityScore ∧
      (getProductivityStats tasks todayStart startDate now).productivityScore ≤ 100) ∧
    (∀ (todayStart startDate now : ℤ),
      (getProductivityStats [] todayStart startDate now).onTimeRate = 0 ∧
      (getProductivityStats [] todayStart startDate now).checklistRate = 0 ∧
      (getProductivityStats [] todayStart startDate now).productivityScore = 0) := by
  constructor
  · intro tasks todayStart startDate now
    constructor
    · show 0 ≤ productivityScoreUser tasks todayStart
      rw [productivityScoreUser]
      exact le_min (by norm_num)
        (jsRound_nonneg (scoreWeights_nonneg tasks todayStart))
    · show productivityScoreUser tasks todayStart ≤ 100
      rw [productivityScoreUser]
      exact min_le_left 100 _
  · intro todayStart startDate now
    refine ⟨rfl, rfl, ?_⟩
    show productivityScoreUser [] todayStart = 0
    have hstreak : computeStreakUser [] todayStart = 0 := rfl
    rw [productivityScoreUser, hstreak]
    norm_num [onTimeRate, checklistCompletionRate, checklistTotal,
      completedTasksOf, jsRound]

/-! ## Team-aggregation lemmas and claims -/

/-- Inserting into the sorted prefix permutes `x :: l`. -/
lemma insertByScore_perm (x : MemberStats) (l : List MemberStats) :
    (insertByScore x l).Perm (x :: l) := by
  induction l with
  | nil => exact List.Perm.refl _
  | cons y ys ih =>
    rw [insertByScore]
    split
    · exact List.Perm.refl _
    · exact (ih.cons y).trans (List.Perm.swap x y ys)

/-- The stable descending sort permutes its input. -/
lemma sortByScoreDesc_perm (l : List MemberStats) : (sortByScoreDesc l).Perm l := by
  induction l with
  | nil => exact List.Perm.refl _
  | cons x xs ih =>
    show (insertByScore x (sortByScoreDesc xs)).Perm (x :: xs)
    exact (insertByScore_perm x _).trans (ih.cons x)

/-- Insertion preserves descending sortedness on `productivityScore`. -/
lemma insertByScore_pairwise (x : MemberStats) (l : List MemberStats)
    (h : l.Pairwise fun a b => b.productivityScore ≤ a.productivityScore) :
    (insertByScore x l).Pairwise fun a b => b.productivityScore ≤ a.productivityScore := by
  induction l with
  | nil => simp [insertByScore]
  | cons y ys ih =>
    obtain ⟨hy, hys⟩ := List.pairwise_cons.mp h
    rw [insertByScore]
    split
    · rename_i hxy
      refine List.pairwise_cons.mpr ⟨?_, h⟩
      intro b hb
      rcases List.mem_cons.mp hb with rfl | hb
      · omega
      · have := hy b hb
        omega
    · rename_i hxy
      refine List.pairwise_cons.mpr ⟨?_, ih hys⟩
      intro b hb
      rcases List.mem_cons.mp ((insertByScore_perm x ys).mem_iff.mp hb) with rfl | hb
      · omega
      · exact hy b hb

/-- The stable descending sort yields a list sorted by descending
`productivityScore`. -/
lemma sortByScoreDesc_pairwise (l : List MemberStats) :
    (sortByScoreDesc l).Pairwise fun a b => b.productivityScore ≤ a.productivityScore := by
  induction l with
  | nil => simp [sortByScoreDesc]
  | cons x xs ih => exact insertByScore_pairwise x (sortByScoreDesc xs) ih

/-- The per-member snapshots underlying a team report, in input order. -/
def memberSnapshots (members : List (ℕ × List Task)) (todayStart startDate now : ℤ) :
    List MemberStats :=
  members.map fun m => memberStats m.1 m.2 todayStart startDate now

/-- The report's member list is the stable descending sort of the input-order
snapshots. -/
lemma teamReport_members (members : List (ℕ × List Task)) (ts sd now : ℤ) :
    (getTeamProductivityStats members ts sd now).members =
      sortByScoreDesc (memberSnapshots members ts sd now) := rfl

/-- The team averages are the rounded arithmetic means (and plain sums) over
the input-order snapshots: sorting does not change sums or length. -/
lemma teamAverage_formulas (members : List (ℕ × List Task)) (ts sd now : ℤ) :
    (getTeamProductivityStats members ts sd now).teamAverage.avgProductivityScore =
      (if 0 < members.length then
        jsRound ((((memberSnapshots members ts sd now).map (·.productivityScore)).sum : ℚ)
          / (members.length : ℚ))
       else 0) ∧
    (getTeamProductivityStats members ts sd now).teamAverage.avgOnTimeRate =
      (if 0 < members.length then
        jsRound ((((memberSnapshots members ts sd now).map (·.onTimeRate)).sum : ℚ)
          / (members.length : ℚ))
       else 0) ∧
    (getTeamProductivityStats members ts sd now).teamAverage.totalCompleted =
      ((memberSnapshots members ts sd now).map (·.completedInPeriod)).sum ∧
    (getTeamProductivityStats members ts sd now).teamAverage.totalOverdue =
      ((memberSnapshots members ts sd now).map (·.overdueTasks)).sum := by
  have hp := sortByScoreDesc_perm (memberSnapshots members ts sd now)
  have hlen : (sortByScoreDesc (memberSnapshots members ts sd now)).length = members.length := by
    rw [hp.length_eq]
    exact List.length_map members _
  have hsum1 := (hp.map fun x => (x.productivityScore : ℚ)).sum_eq
  have hsum2 := (hp.map fun x => (x.onTimeRate : ℚ)).sum_eq
  have hsum3 := (hp.map (·.completedInPeriod)).sum_eq
  have hsum4 := (hp.map (·.overdueTasks)).sum_eq
  refine ⟨?_, ?_, ?_, ?_⟩ <;>
    simp only [getTeamProductivityStats, memberSnapshots] at *
  · rw [hlen, hsum1]
  · rw [hlen, hsum2]
  · rw [hsum3]
  · rw [hsum4]

/-- A one-third-completed checklist. -/
def itemsThird : List ChecklistItem := [⟨"a", true⟩, ⟨"b", false⟩, ⟨"c", false⟩]

/-- A two-thirds-completed checklist. -/
def itemsTwoThirds : List ChecklistItem := [⟨"a", true⟩, ⟨"b", true⟩, ⟨"c", false⟩]

/-- A fully completed one-item checklist. -/
def itemsFull : List ChecklistItem := [⟨"a", true⟩]

/-- A completed task with no due date, last updated at the epoch. -/
def bTask (n : ℕ) (cl : List ChecklistItem) : Task :=
  { id := n, status := TaskStatus.completed, priority := "Low"
    dueDate := none, createdAt := 0, updatedAt := 0
    todoChecklist := cl, progress := 100, assignedTo := []
    reminderSent := none, reminderSentAt := none }

/-- Member A's tasks: 10 completed on-time tasks, completions on walk days
0–6 (streak 7), one one-third checklist — team-path score 90 (20 + 25 + 25 +
15 + 5). -/
def tasksA : List Task :=
  [{ cTask 1 T367 T367 with todoChecklist := itemsThird },
    cTask 2 T367 T367, cTask 3 T367 T367, cTask 10 T367 T367,
    cTask 4 (T367 - dayMs) T367,
    cTask 5 (T367 - 2 * dayMs) T367,
    cTask 6 (T367 - 3 * dayMs) T367,
    cTask 7 (T367 - 4 * dayMs) T367,
    cTask 8 (T367 - 5 * dayMs) T367,
    cTask 9 (T367 - 6 * dayMs) T367]

/-- Member B's tasks: 5 completed tasks with no due dates (on-time rate 0),
updated at the epoch (streak 0), one fully completed checklist — team-path
score 50 (10 + 25 + 0 + 0 + 15). -/
def tasksB : List Task :=
  [bTask 11 itemsFull, bTask 12 [], bTask 13 [], bTask 14 [], bTask 15 []]

/-- Member C's tasks: 5 completed on-time tasks updated at the epoch (streak
0), one two-thirds checklist — team-path score 70 (10 + 25 + 25 + 0 + 10). -/
def tasksC : List Task :=
  [{ cTask 21 0 10 with todoChecklist := itemsTwoThirds },
    cTask 22 0 10, cTask 23 0 10, cTask 24 0 10, cTask 25 0 10]

/-- Period start for the concrete team scenario: 30 days before `T367`. -/
def sdABC : ℤ := T367 - 30 * dayMs

/-- The three-member team of the ranking scenario, in input order A, B, C
(scores 90, 50, 70). -/
def teamABC : List (ℕ × List Task) := [(1, tasksA), (2, tasksB), (3, tasksC)]

/-- Member A's snapshot. -/
def mA : MemberStats := memberStats 1 tasksA T367 sdABC T367

/-- Member B's snapshot. -/
def mB : MemberStats := memberStats 2 tasksB T367 sdABC T367

/-- Member C's snapshot. -/
def mC : MemberStats := memberStats 3 tasksC T367 sdABC T367

/-- Member A's team-path score evaluates to 90. -/
lemma scoreA : productivityScoreTeam tasksA T367 = 90 := by
  have hlen : tasksA.length = 10 := by decide
  have hcomp : (completedTasksOf tasksA).length = 10 := by decide
  have hon : onTimeCompletions tasksA = 10 := by decide
  have hstreak : computeStreakTeam tasksA T367 = 7 := by decide
  have htot : checklistTotal tasksA = 3 := by decide
  have hdone : checklistCompleted tasksA = 1 := by decide
  have hrate : onTimeRate tasksA = 100 := by
    rw [onTimeRate, hcomp, hon]; norm_num [jsRound]
  rw [productivityScoreTeam, hlen, hcomp, hrate, hstreak, htot, hdone]
  norm_num [jsRound]

/-- Member B's team-path score evaluates to 50. -/
lemma scoreB : productivityScoreTeam tasksB T367 = 50 := by
  have hlen : tasksB.length = 5 := by decide
  have hcomp : (completedTasksOf tasksB).length = 5 := by decide
  have hon : onTimeCompletions tasksB = 0 := by decide
  have hstreak : computeStreakTeam tasksB T367 = 0 := by decide
  have htot : checklistTotal tasksB = 1 := by decide
  have hdone : checklistCompleted tasksB = 1 := by decide
  have hrate : onTimeRate tasksB = 0 := by
    rw [onTimeRate, hcomp, hon]; norm_num [jsRound]
  rw [productivityScoreTeam, hlen, hcomp, hrate, hstreak, htot, hdone]
  norm_num [jsRound]

/-- Member C's team-path score evaluates to 70. -/
lemma scoreC : productivityScoreTeam tasksC T367 = 70 := by
  have hlen : tasksC.length = 5 := by decide
  have hcomp : (completedTasksOf tasksC).length = 5 := by decide
  have hon : onTimeCompletions tasksC = 5 := by decide
  have hstreak : computeStreakTeam tasksC T367 = 0 := by decide
  have htot : checklistTotal tasksC = 3 := by decide
  have hdone : checklistCompleted tasksC = 2 := by decide
  have hrate : onTimeRate tasksC = 100 := by
    rw [onTimeRate, hcomp, hon]; norm_num [jsRound]
  rw [productivityScoreTeam, hlen, hcomp, hrate, hstreak, htot, hdone]
  norm_num [jsRound]

/-- C9: the team report's members come back sorted in descending order of
composite score as a permutation of the per-member snapshots; the team
averages are the rounded arithmetic means of the members' scores and
on-time rates and the totals are the plain sums of their period-completions
and overdue counts; a team of zero members yields zero-valued averages; and
in the concrete scenario with member scores 90, 50, 70 (input order) the
members come back ordered [90, 70, 50] with
`avgProductivityScore = round(210/3) = 70`. -/
theorem team_aggregation_ranking :
    (∀ (members : List (ℕ × List Task)) (ts sd now : ℤ),
      ((getTeamProductivityStats members ts sd now).members.Pairwise
        fun a b => b.productivityScore ≤ a.productivityScore) ∧
      (getTeamProductivityStats members ts sd now).members.Perm
        (memberSnapshots members ts sd now) ∧
      (getTeamProductivityStats members ts sd now).teamAverage.avgProductivityScore =
        (if 0 < members.length then
          jsRound ((((memberSnapshots members ts sd now).map
            (·.productivityScore)).sum : ℚ) / (members.length : ℚ))
         else 0) ∧
      (getTeamProductivityStats members ts sd now).teamAverage.avgOnTimeRate =
        (if 0 < members.length then
          jsRound ((((memberSnapshots members ts sd now).map
            (·.onTimeRate)).sum : ℚ) / (members.length : ℚ))
         else 0) ∧
      (getTeamProductivityStats members ts sd now).teamAverage.totalCompleted =
        ((memberSnapshots members ts sd now).map (·.completedInPeriod)).sum ∧
      (getTeamProductivityStats members ts sd now).teamAverage.totalOverdue =
        ((memberSnapshots members ts sd now).map (·.overdueTasks)).sum) ∧
    (∀ ts sd now : ℤ,
      (getTeamProductivityStats [] ts sd now).teamAverage = ⟨0, 0, 0, 0⟩) ∧
    ((getTeamProductivityStats teamABC T367 sdABC T367).members.map
        (·.productivityScore) = [90, 70, 50] ∧
      (getTeamProductivityStats teamABC T367 sdABC T367).teamAverage.avgProductivityScore
        = 70 ∧
      (getTeamProductivityStats teamABC T367 sdABC T367).teamAverage.avgOnTimeRate
        = 67 ∧
      (getTeamProductivityStats teamABC T367 sdABC T367).teamAverage.totalCompleted
        = 10 ∧
      (getTeamProductivityStats teamABC T367 sdABC T367).teamAverage.totalOverdue
        = 0) := by
  have hA : mA.productivityScore = 90 := scoreA
  have hB : mB.productivityScore = 50 := scoreB
  have hC : mC.productivityScore = 70 := scoreC
  have hmemb : memberSnapshots teamABC T367 sdABC T367 = [mA, mB, mC] := rfl
  have h1 : insertByScore mB [mC] = [mC, mB] := by
    rw [insertByScore, if_neg]
    · rfl
    · rw [hB, hC]; omega
  have h2 : insertByScore mA [mC, mB] = [mA, mC, mB] := by
    rw [insertByScore, if_pos]
    rw [hA, hC]; omega
  have hsort : sortByScoreDesc [mA, mB, mC] = [mA, mC, mB] := by
    have hfold : sortByScoreDesc [mA, mB, mC]
        = insertByScore mA (insertByScore mB (insertByScore mC [])) := rfl
    rw [hfold, show insertByScore mC [] = [mC] from rfl, h1, h2]
  refine ⟨fun members ts sd now => ?_, fun ts sd now => rfl, ?_, ?_, ?_, ?_, ?_⟩
  · refine ⟨?_, ?_, teamAverage_formulas members ts sd now⟩
    · rw [teamReport_members]
      exact sortByScoreDesc_pairwise _
    · rw [teamReport_members]
      exact sortByScoreDesc_perm _
  · rw [teamReport_members, hmemb, hsort]
    simp [hA, hB, hC]
  · rw [(teamAverage_formulas teamABC T367 sdABC T367).1, hmemb]
    simp only [List.map_cons, List.map_nil, List.sum_cons, List.sum_nil, hA, hB, hC]
    norm_num [jsRound, teamABC]
  · have hOnA : mA.onTimeRate = 100 := by
      show onTimeRate tasksA = 100
      have hcomp : (completedTasksOf tasksA).length = 10 := by decide
      have hon : onTimeCompletions tasksA = 10 := by decide
      rw [onTimeRate, hcomp, hon]; norm_num [jsRound]
    have hOnB : mB.onTimeRate = 0 := by
      show onTimeRate tasksB = 0
      have hcomp : (completedTasksOf tasksB).length = 5 := by decide
      have hon : onTimeCompletions tasksB = 0 := by decide
      rw [onTimeRate, hcomp, hon]; norm_num [jsRound]
    have hOnC : mC.onTimeRate = 100 := by
      show onTimeRate tasksC = 100
      have hcomp : (completedTasksOf tasksC).length = 5 := by decide
      have hon : onTimeCompletions tasksC = 5 := by decide
      rw [onTimeRate, hcomp, hon]; norm_num [jsRound]
    rw [(teamAverage_formulas teamABC T367 sdABC T367).2.1, hmemb]
    simp only [List.map_cons, List.map_nil, List.sum_cons, List.sum_nil,
      hOnA, hOnB, hOnC]
    norm_num [jsRound, teamABC]
  · rw [(teamAverage_formulas teamABC T367 sdABC T367).2.2.1, hmemb]
    decide
  · rw [(teamAverage_formulas teamABC T367 sdABC T367).2.2.2, hmemb]
    decide

/-! ## Status/checklist coupling claims -/

/-- The `progress` field written by `updateTaskChecklist`. -/
lemma updateTaskChecklist_progress (t : Task) (cl : List ChecklistItem) :
    (updateTaskChecklist t cl).progress =
      (if 0 < cl.length then
        jsRound (((cl.filter (·.completed)).length : ℚ) / (cl.length : ℚ) * 100)
       else 0) := rfl

/-- The `status` field written by `updateTaskChecklist` is derived from the
written `progress`. -/
lemma updateTaskChecklist_status (t : Task) (cl : List ChecklistItem) :
    (updateTaskChecklist t cl).status =
      (if (updateTaskChecklist t cl).progress == 100 then TaskStatus.completed
       else if (updateTaskChecklist t cl).progress > 0 then TaskStatus.inProgress
       else TaskStatus.pending) := rfl

/-- C10: setting a task's status to `Completed` forces every checklist
item's `completed` flag to `true` and `progress` to `100` — so such a task
contributes only fully-completed checklist items to the checklist-rate
metric (`checklistCompleted = checklistTotal` over it) — and updating the
checklist recomputes `progress` as the rounded completed-item percentage and
derives `status` from it: `Completed` exactly at progress 100, `In Progress`
exactly at positive progress below 100, `Pending` otherwise. -/
theorem status_checklist_coupling :
    (∀ (t : Task),
      (updateTaskStatus t (some TaskStatus.completed)).status = TaskStatus.completed ∧
      (∀ item ∈ (updateTaskStatus t (some TaskStatus.completed)).todoChecklist,
        item.completed = true) ∧
      (updateTaskStatus t (some TaskStatus.completed)).progress = 100 ∧
      checklistCompleted [updateTaskStatus t (some TaskStatus.completed)] =
        checklistTotal [updateTaskStatus t (some TaskStatus.completed)]) ∧
    (∀ (t : Task) (cl : List ChecklistItem),
      (updateTaskChecklist t cl).progress =
        (if 0 < cl.length then
          jsRound (((cl.filter (·.completed)).length : ℚ) / (cl.length : ℚ) * 100)
         else 0) ∧
      ((updateTaskChecklist t cl).status = TaskStatus.completed ↔
        (updateTaskChecklist t cl).progress = 100) ∧
      ((updateTaskChecklist t cl).status = TaskStatus.inProgress ↔
        (updateTaskChecklist t cl).progress ≠ 100 ∧
          0 < (updateTaskChecklist t cl).progress) ∧
      ((updateTaskChecklist t cl).status = TaskStatus.pending ↔
        (updateTaskChecklist t cl).progress ≠ 100 ∧
          ¬0 < (updateTaskChecklist t cl).progress)) := by
  constructor
  · intro t
    have hcl : (updateTaskStatus t (some TaskStatus.completed)).todoChecklist =
        t.todoChecklist.map fun item => { item with completed := true } := by
      simp [updateTaskStatus]
    have hmem : ∀ item ∈ (updateTaskStatus t (some TaskStatus.completed)).todoChecklist,
        item.completed = true := by
      rw [hcl]
      intro item hitem
      obtain ⟨i, _, rfl⟩ := List.mem_map.mp hitem
      rfl
    refine ⟨by simp [updateTaskStatus], hmem, by simp [updateTaskStatus], ?_⟩
    have hfilter : (updateTaskStatus t (some TaskStatus.completed)).todoChecklist.filter
        (·.completed) = (updateTaskStatus t (some TaskStatus.completed)).todoChecklist :=
      List.filter_eq_self.mpr fun item hitem => by
        rw [hmem item hitem]
    simp [checklistCompleted, checklistTotal, hfilter]
  · intro t cl
    refine ⟨updateTaskChecklist_progress t cl, ?_, ?_, ?_⟩ <;>
      rw [updateTaskChecklist_status] <;>
      by_cases h1 : (updateTaskChecklist t cl).progress = 100 <;>
      by_cases h2 : 0 < (updateTaskChecklist t cl).progress <;>
      simp [h1, h2]

/-- Witness for C10 at a concrete input: completing the pending task that
carries the 20-item checklist marks it completed, and its first (mapped)
checklist item is completed. -/
theorem status_checklist_coupling_witness :
    (updateTaskStatus (pTask 7 itemsC7) (some TaskStatus.completed)).status
      = TaskStatus.completed ∧
    ({ text := "item", completed := true } : ChecklistItem).completed = true :=
  ⟨(status_checklist_coupling.1 (pTask 7 itemsC7)).1,
    (status_checklist_coupling.1 (pTask 7 itemsC7)).2.1 ⟨"item", true⟩ (by decide)⟩

end WorkTrack
